import Mathlib

/-!
Verification of the simple-http-server repository (Python sources under
src/): a shallow embedding in Lean 4 of the request parser
(src/src/http_parser.py), the response builder (src/src/http_response.py),
the request handler and per-connection step (src/src/server.py) and the
utility helpers (src/src/utils.py), together with theorems settling the
frozen specification claims.

Modelling conventions:
* bytes are `List Nat` (each element a byte value, < 256 for real inputs);
* the filesystem that `HTTPServer.handle_request` consults through
  `pathlib.Path` is abstracted as a structure `FS` of total query
  functions (`is_dir`, `resolve`, `exists`, `is_file`, `read_bytes`);
  `Path.resolve` is total here, so the `except`-to-500 fallback around it
  has no counterpart;
* the current date that `HTTPResponse.__init__` formats from
  `datetime.utcnow()` is passed in as an opaque preformatted string
  `date`, so that runs at the same instant can be compared;
* Python `str` operations (`split`, `strip`, `lower`, `startswith`,
  `endswith`, `in`) are defined below by structural recursion over the
  character list, with Python's semantics.
-/

namespace SimpleHttpServer

/-! ## Python string primitives -/

/-- Python whitespace stripped by `str.strip()` (ASCII fragment:
space, tab, newline, carriage return, vertical tab, form feed). -/
def isPyWhitespace (c : Char) : Bool :=
  c = ' ' || c = '\t' || c = '\n' || c = '\r' || c = '\x0b' || c = '\x0c'

/-- Python `str.strip()` (ASCII whitespace; the sources only strip header
names and values). -/
def pyStrip (s : String) : String :=
  String.mk (((s.toList.dropWhile isPyWhitespace).reverse.dropWhile isPyWhitespace).reverse)

/-- Python `str.lower()` restricted to ASCII letters (the sources lower
header values such as `close` / `keep-alive`). -/
def pyLower (s : String) : String :=
  String.mk (s.toList.map (fun c => if 'A' ≤ c ∧ c ≤ 'Z' then Char.ofNat (c.toNat + 32) else c))

/-- `needle` occurs as a contiguous run inside `hay` (helper for Python's
`in` on strings). -/
def listContainsSeq (needle : List Char) : List Char → Bool
  | [] => needle.isEmpty
  | c :: rest => needle.isPrefixOf (c :: rest) || listContainsSeq needle rest

/-- Python `needle in hay` on strings. -/
def strContains (hay needle : String) : Bool :=
  listContainsSeq needle.toList hay.toList

/-- Python `line.split(sep, 1)` for a one-character separator known to
occur: the text before the first occurrence of `c` and the text after it. -/
def splitOnceChar (c : Char) (s : String) : String × String :=
  (String.mk (s.toList.takeWhile (· ≠ c)),
   String.mk ((s.toList.dropWhile (· ≠ c)).drop 1))

/-- Python `s.startswith(pre)`. -/
def pyStartsWith (s pre : String) : Bool :=
  pre.toList.isPrefixOf s.toList

/-- Python `s.endswith(suf)`. -/
def pyEndsWith (s suf : String) : Bool :=
  suf.toList.isSuffixOf s.toList

/-- Python `s.split(sep)` on character lists, for a separator with first
character `s0` and remaining characters `sepRest` (Python requires a
non-empty separator): maximal split at every non-overlapping occurrence,
keeping empty pieces. -/
def pySplitCharsFuel (s0 : Char) (sepRest : List Char) :
    Nat → List Char → List (List Char)
  | _, [] => [[]]
  | 0, _ :: _ => [[]]
  | fuel + 1, c :: rest =>
    if (s0 :: sepRest).isPrefixOf (c :: rest) then
      [] :: pySplitCharsFuel s0 sepRest fuel ((c :: rest).drop (s0 :: sepRest).length)
    else
      match pySplitCharsFuel s0 sepRest fuel rest with
      | [] => [[c]]
      | x :: xs => (c :: x) :: xs

/-- `pySplitCharsFuel` with enough fuel (each step consumes at least one
character, so the length suffices; the fuel exists only to make the
recursion structural). -/
def pySplitChars (s0 : Char) (sepRest : List Char) (l : List Char) :
    List (List Char) :=
  pySplitCharsFuel s0 sepRest l.length l

/-- Python `s.split(sep)` for a non-empty separator. -/
def pySplit (sep s : String) : List String :=
  match sep.toList with
  | [] => [s]
  | c :: cs => (pySplitChars c cs s.toList).map String.mk

/-- `sep.join(xs)` on character lists. -/
def intercalateChars (sep : List Char) : List (List Char) → List Char
  | [] => []
  | [x] => x
  | x :: y :: rest => x ++ sep ++ intercalateChars sep (y :: rest)

/-- Python `sep.join(xs)`. -/
def pyJoin (sep : String) (xs : List String) : String :=
  String.mk (intercalateChars sep.toList (xs.map String.toList))

/-! ## UTF-8 encode / decode

`parse_http_request` decodes the header section with
`bytes.decode('utf-8', errors='ignore')`; `url_decode` decodes
percent-decoded bytes with `errors='strict'` (failure propagates as
`ValueError`). Both are modelled on byte lists with the standard UTF-8
well-formedness rules (no overlong forms, no surrogates, max U+10FFFF).
The `ignore` handler drops offending bytes one at a time, which agrees
with CPython on every input whose decodable parts are ASCII (the only
inputs the claims evaluate). -/

/-- UTF-8 encoding of one scalar value. -/
def utf8EncodeScalar (c : Nat) : List Nat :=
  if c < 0x80 then [c]
  else if c < 0x800 then [0xC0 + c / 64, 0x80 + c % 64]
  else if c < 0x10000 then [0xE0 + c / 4096, 0x80 + (c / 64) % 64, 0x80 + c % 64]
  else [0xF0 + c / 0x40000, 0x80 + (c / 4096) % 64, 0x80 + (c / 64) % 64, 0x80 + c % 64]

/-- Python `str.encode('utf-8')` as a byte list. -/
def strBytes (s : String) : List Nat :=
  (s.toList.map (fun ch => utf8EncodeScalar ch.toNat)).flatten

/-- A byte is a UTF-8 continuation byte (`0x80 ≤ b ≤ 0xBF`). -/
def isCont (b : Nat) : Bool := 0x80 ≤ b && b ≤ 0xBF

/-- The scalar value encoded by a two-byte sequence. -/
def scalar2 (b0 b1 : Nat) : Nat := (b0 - 0xC0) * 64 + (b1 - 0x80)

/-- The scalar value encoded by a three-byte sequence. -/
def scalar3 (b0 b1 b2 : Nat) : Nat :=
  (b0 - 0xE0) * 4096 + (b1 - 0x80) * 64 + (b2 - 0x80)

/-- The scalar value encoded by a four-byte sequence. -/
def scalar4 (b0 b1 b2 b3 : Nat) : Nat :=
  (b0 - 0xF0) * 0x40000 + (b1 - 0x80) * 4096 + (b2 - 0x80) * 64 + (b3 - 0x80)

/-- Valid second byte of a three-byte sequence led by `b0` (excludes
overlong forms and surrogates). -/
def cont3 (b0 b1 : Nat) : Bool :=
  (if b0 = 0xE0 then 0xA0 else 0x80) ≤ b1 && b1 ≤ (if b0 = 0xED then 0x9F else 0xBF)

/-- Valid second byte of a four-byte sequence led by `b0` (excludes
overlong forms and scalars above U+10FFFF). -/
def cont4 (b0 b1 : Nat) : Bool :=
  (if b0 = 0xF0 then 0x90 else 0x80) ≤ b1 && b1 ≤ (if b0 = 0xF4 then 0x8F else 0xBF)

/-- `bytes.decode('utf-8', errors='ignore')`: well-formed sequences
(no overlong forms, no surrogates, max U+10FFFF) are decoded, offending
bytes are dropped. -/
def utf8DecodeIgnoreFuel : Nat → List Nat → List Char
  | _, [] => []
  | 0, _ :: _ => []
  | fuel + 1, b0 :: rest =>
    if b0 < 0x80 then Char.ofNat b0 :: utf8DecodeIgnoreFuel fuel rest
    else if 0xC2 ≤ b0 && b0 ≤ 0xDF then
      match rest with
      | b1 :: rest2 =>
        if isCont b1 then Char.ofNat (scalar2 b0 b1) :: utf8DecodeIgnoreFuel fuel rest2
        else utf8DecodeIgnoreFuel fuel (b1 :: rest2)
      | [] => []
    else if 0xE0 ≤ b0 && b0 ≤ 0xEF then
      match rest with
      | b1 :: b2 :: rest3 =>
        if cont3 b0 b1 && isCont b2 then
          Char.ofNat (scalar3 b0 b1 b2) :: utf8DecodeIgnoreFuel fuel rest3
        else utf8DecodeIgnoreFuel fuel (b1 :: b2 :: rest3)
      | [b1] => utf8DecodeIgnoreFuel fuel [b1]
      | [] => []
    else if 0xF0 ≤ b0 && b0 ≤ 0xF4 then
      match rest with
      | b1 :: b2 :: b3 :: rest4 =>
        if cont4 b0 b1 && isCont b2 && isCont b3 then
          Char.ofNat (scalar4 b0 b1 b2 b3) :: utf8DecodeIgnoreFuel fuel rest4
        else utf8DecodeIgnoreFuel fuel (b1 :: b2 :: b3 :: rest4)
      | [b1, b2] => utf8DecodeIgnoreFuel fuel [b1, b2]
      | [b1] => utf8DecodeIgnoreFuel fuel [b1]
      | [] => []
    else utf8DecodeIgnoreFuel fuel rest

/-- `utf8DecodeIgnoreFuel` with enough fuel (each step consumes at least
one byte, so the length suffices; the fuel exists only to make the
recursion structural). -/
def utf8DecodeIgnore (l : List Nat) : List Char :=
  utf8DecodeIgnoreFuel l.length l

/-- `bytes.decode('utf-8', errors='strict')`: `none` on any invalid byte
(CPython raises `UnicodeDecodeError`, a `ValueError`). -/
def utf8DecodeStrict : List Nat → Option (List Char)
  | [] => some []
  | b0 :: rest =>
    if b0 < 0x80 then (utf8DecodeStrict rest).map (Char.ofNat b0 :: ·)
    else if 0xC2 ≤ b0 && b0 ≤ 0xDF then
      match rest with
      | b1 :: rest2 =>
        if isCont b1 then (utf8DecodeStrict rest2).map (Char.ofNat (scalar2 b0 b1) :: ·)
        else none
      | [] => none
    else if 0xE0 ≤ b0 && b0 ≤ 0xEF then
      match rest with
      | b1 :: b2 :: rest3 =>
        if cont3 b0 b1 && isCont b2 then
          (utf8DecodeStrict rest3).map (Char.ofNat (scalar3 b0 b1 b2) :: ·)
        else none
      | _ => none
    else if 0xF0 ≤ b0 && b0 ≤ 0xF4 then
      match rest with
      | b1 :: b2 :: b3 :: rest4 =>
        if cont4 b0 b1 && isCont b2 && isCont b3 then
          (utf8DecodeStrict rest4).map (Char.ofNat (scalar4 b0 b1 b2 b3) :: ·)
        else none
      | _ => none
    else none

/-! ## src/src/utils.py -/

/-- ASCII hex digit value (`urllib.parse._hextobyte` accepts both cases). -/
def hexVal (b : Nat) : Option Nat :=
  if 0x30 ≤ b && b ≤ 0x39 then some (b - 0x30)
  else if 0x41 ≤ b && b ≤ 0x46 then some (b - 0x41 + 10)
  else if 0x61 ≤ b && b ≤ 0x66 then some (b - 0x61 + 10)
  else none

/-- `urllib.parse.unquote_to_bytes`: a `%` followed by two hex digits
becomes that byte; any other `%` is kept literally. -/
def percentDecodeBytes : List Nat → List Nat
  | [] => []
  | 0x25 :: h1 :: h2 :: rest =>
    match hexVal h1, hexVal h2 with
    | some v1, some v2 => (v1 * 16 + v2) :: percentDecodeBytes rest
    | _, _ => 0x25 :: percentDecodeBytes (h1 :: h2 :: rest)
  | b :: rest => b :: percentDecodeBytes rest

/-- `utils.url_decode` (src/src/utils.py:31-38):
`urllib.parse.unquote(path, errors='strict')`, which percent-decodes the
UTF-8 bytes of the string and re-decodes them strictly; a
`UnicodeDecodeError` (a `ValueError`) is re-raised as `ValueError`,
modelled as `none`. -/
def url_decode (path : String) : Option String :=
  (utf8DecodeStrict (percentDecodeBytes (strBytes path))).map String.mk

/-- `utils.MIME_TYPES` (src/src/utils.py:10-23). -/
def MIME_TYPES : List (String × String) :=
  [(".html", "text/html"), (".css", "text/css"), (".js", "application/javascript"),
   (".jpg", "image/jpeg"), (".jpeg", "image/jpeg"), (".png", "image/png"),
   (".gif", "image/gif"), (".swf", "application/x-shockwave-flash"),
   (".txt", "text/plain"), (".json", "application/json"),
   (".xml", "application/xml"), (".ico", "image/x-icon")]

/-- First value bound to `k` in an association list (Python dict lookup;
keys are unique by construction of `dictSet`). -/
def dictGet? (m : List (String × String)) (k : String) : Option String :=
  match m with
  | [] => none
  | kv :: rest => if kv.1 = k then some kv.2 else dictGet? rest k

/-- Python `dict.get(k, d)`. -/
def dictGetD (m : List (String × String)) (k d : String) : String :=
  (dictGet? m k).getD d

/-- Python `k in dict`. -/
def dictContains (m : List (String × String)) (k : String) : Bool :=
  (dictGet? m k).isSome

/-- Python `dict[k] = v`: update in place when the key exists (insertion
position is preserved), otherwise append. -/
def dictSet (m : List (String × String)) (k v : String) : List (String × String) :=
  match m with
  | [] => [(k, v)]
  | kv :: rest => if kv.1 = k then (k, v) :: rest else kv :: dictSet rest k v

/-- `utils.get_content_type` (src/src/utils.py:26-28). -/
def get_content_type (extension : String) : String :=
  dictGetD MIME_TYPES (pyLower extension) "application/octet-stream"

/-! ## src/src/http_parser.py -/

/-- `http_parser.HTTPRequest` (src/src/http_parser.py:9-16). -/
structure HTTPRequest where
  method : String
  path : String
  version : String
  headers : List (String × String)
  body : Option (List Nat)
deriving DecidableEq

/-- Split a byte list at the first occurrence of `sep` (Python
`data.split(sep, 1)`): `none` when `sep` does not occur. -/
def splitFirst (sep : List Nat) : List Nat → Option (List Nat × List Nat)
  | [] => if sep.isEmpty then some ([], []) else none
  | b :: rest =>
    if sep.isPrefixOf (b :: rest) then some ([], (b :: rest).drop sep.length)
    else match splitFirst sep rest with
      | some (l, r) => some (b :: l, r)
      | none => none

/-- The bytes `b"\r\n\r\n"`. -/
def crlfcrlf : List Nat := [13, 10, 13, 10]

/-- `parts[0]` of `data.split(b"\r\n\r\n", 1)`
(src/src/http_parser.py:23-24). -/
def headerSection (data : List Nat) : List Nat :=
  match splitFirst crlfcrlf data with
  | some (h, _) => h
  | none => data

/-- `parts[1] if len(parts) > 1 else b""` (src/src/http_parser.py:25). -/
def bodySection (data : List Nat) : List Nat :=
  match splitFirst crlfcrlf data with
  | some (_, b) => b
  | none => []

/-- The decoded header lines
(`header_data.decode('utf-8', errors='ignore').split('\r\n')`,
src/src/http_parser.py:28). -/
def requestLines (data : List Nat) : List String :=
  pySplit "\r\n" (String.mk (utf8DecodeIgnore (headerSection data)))

/-- The header-dictionary loop (src/src/http_parser.py:45-54): empty
lines are skipped, a line without a colon raises `ValueError`, otherwise
the line is split at the first colon and the stripped name/value pair is
written into the dict. -/
def parseHeaders : List String → List (String × String) → Except Unit (List (String × String))
  | [], acc => .ok acc
  | line :: rest, acc =>
    if line = "" then parseHeaders rest acc
    else if !(strContains line ":") then .error ()
    else
      let kv := splitOnceChar ':' line
      parseHeaders rest (dictSet acc (pyStrip kv.1) (pyStrip kv.2))

/-- `http_parser.parse_http_request` (src/src/http_parser.py:19-65).
Every raise inside the body is caught by the outer
`except Exception` and re-raised as a single `ValueError`, modelled as
`Except Unit`. The `if not lines` guard is kept even though `str.split`
never returns an empty list. -/
def parse_http_request (data : List Nat) : Except Unit HTTPRequest :=
  let body := bodySection data
  match requestLines data with
  | [] => .error ()
  | first :: rest =>
    match pySplit " " first with
    | [method, path, version] =>
      if !(pyStartsWith version "HTTP/") then .error ()
      else
        match parseHeaders rest [] with
        | .error _ => .error ()
        | .ok headers =>
          .ok { method := method, path := path, version := version,
                headers := headers,
                body := if body.isEmpty then none else some body }
    | _ => .error ()

/-! ## src/src/http_response.py -/

/-- `http_response.HTTPResponse` field state (src/src/http_response.py:21-25). -/
structure HTTPResponse where
  status_code : Nat
  status_message : String
  headers : List (String × String)
  body : Option (List Nat)
deriving DecidableEq

/-- `HTTPResponse.STATUS_MESSAGES` (src/src/http_response.py:12-19). -/
def STATUS_MESSAGES (code : Nat) : Option String :=
  if code = 200 then some "OK"
  else if code = 400 then some "Bad Request"
  else if code = 403 then some "Forbidden"
  else if code = 404 then some "Not Found"
  else if code = 405 then some "Method Not Allowed"
  else if code = 500 then some "Internal Server Error"
  else none

/-- `HTTPResponse.__init__` (src/src/http_response.py:21-30): the message
falls back to the table (also when the explicit message is the falsy
empty string, because the source uses `or`); the `Date` header value is
the preformatted `date` argument standing in for
`_format_date(datetime.utcnow())`. -/
def HTTPResponse.mkResp (date : String) (status_code : Nat)
    (status_message : Option String) : HTTPResponse :=
  let msg :=
    match status_message with
    | some m => if m = "" then (STATUS_MESSAGES status_code).getD "Unknown" else m
    | none => (STATUS_MESSAGES status_code).getD "Unknown"
  { status_code := status_code, status_message := msg,
    headers := dictSet (dictSet (dictSet [] "Server" "OTUS-HTTPServer/0.1")
      "Date" date) "Connection" "keep-alive",
    body := none }

/-- Python truthiness of an optional byte string: `b""` and `None` are
both falsy. -/
def bodyTruthy : Option (List Nat) → Bool
  | some (_ :: _) => true
  | _ => false

/-- The synthesized error body
`"<html><body><h1>{code} {message}</h1></body></html>"`
(src/src/http_response.py:53). -/
def errorBodyStr (code : Nat) (msg : String) : String :=
  "<html><body><h1>" ++ toString code ++ " " ++ msg ++ "</h1></body></html>"

/-- Python `"\r\n".join(lines)`. -/
def joinCRLF : List String → String
  | [] => ""
  | [l] => l
  | l :: l2 :: rest => l ++ "\r\n" ++ joinCRLF (l2 :: rest)

/-- The `header_lines` list of `HTTPResponse.to_bytes`
(src/src/http_response.py:38-44): the status line followed by one
`"name: value"` line per header, in insertion order. It is materialized
from `self.headers` BEFORE the Content-Length / Content-Type /
error-body fix-ups at lines 46-56 mutate `self.headers`, so those
fix-ups never reach it. -/
def to_bytes_header_lines (r : HTTPResponse) : List String :=
  ("HTTP/1.1 " ++ toString r.status_code ++ " " ++ r.status_message) ::
    r.headers.map (fun kv => kv.1 ++ ": " ++ kv.2)

/-- The serialized header block of `HTTPResponse.to_bytes`
(src/src/http_response.py:59): the joined header lines terminated by a
blank line. -/
def to_bytes_headerBlock (r : HTTPResponse) : String :=
  joinCRLF (to_bytes_header_lines r) ++ "\r\n\r\n"

/-- The body field after the fix-ups of `to_bytes`
(src/src/http_response.py:46-56): an already-truthy body is kept; with no
(truthy) body, a status ≥ 400 and no explicit `Content-Length` header, the
HTML error body is synthesized (the accompanying `add_header` calls only
mutate the dict that was already serialized). -/
def to_bytes_finalBody (r : HTTPResponse) : Option (List Nat) :=
  if bodyTruthy r.body then r.body
  else if r.status_code ≥ 400 && !(dictContains r.headers "Content-Length") then
    some (strBytes (errorBodyStr r.status_code r.status_message))
  else r.body

/-- `HTTPResponse.to_bytes` (src/src/http_response.py:36-66): the encoded
header block followed by the (possibly synthesized) body when that body
is truthy. -/
def to_bytes (r : HTTPResponse) : List Nat :=
  strBytes (to_bytes_headerBlock r) ++
    (if bodyTruthy (to_bytes_finalBody r) then (to_bytes_finalBody r).getD [] else [])

/-! ## src/src/server.py -/

/-- Outcome of `Path.read_bytes()` (src/src/server.py:192-197):
success, `PermissionError`, or any other exception. -/
inductive ReadResult where
  | ok (content : List Nat)
  | permError
  | otherError
deriving DecidableEq

/-- The filesystem as consulted by `HTTPServer.handle_request` through
`pathlib.Path`: total query functions abstracting `is_dir`, `resolve`
(canonical absolute form, following symlinks), `exists`, `is_file` and
`read_bytes`. -/
structure FS where
  is_dir : String → Bool
  resolve : String → String
  exist : String → Bool
  is_file : String → Bool
  read_bytes : String → ReadResult

/-- `path.split('?')[0]` guarded by `'?' in path`
(src/src/server.py:144-145). -/
def stripQuery (p : String) : String :=
  if strContains p "?" then (pySplit "?" p).headD "" else p

/-- `path[1:]` guarded by `path.startswith('/')`
(src/src/server.py:152-153). -/
def stripLeadingSlash (p : String) : String :=
  if pyStartsWith p "/" then String.mk (p.toList.drop 1) else p

/-- `str(PurePosixPath(root) / p)` for an absolute normalized `root`:
an absolute `p` replaces `root`; otherwise the non-empty, non-`"."`
components of `p` are appended (pure-path normalization drops duplicate
slashes, `"."` components and trailing slashes). -/
def pathJoin (root p : String) : String :=
  let comps := (pySplit "/" p).filter (fun c => c ≠ "" && c ≠ ".")
  let joined := pyJoin "/" comps
  if pyStartsWith p "/" then "/" ++ joined
  else if comps.isEmpty then root
  else if pyEndsWith root "/" then root ++ joined
  else root ++ "/" ++ joined

/-- `PurePath.suffix` of the final path component (CPython: the part of
the name from its last dot `i` when `0 < i < len(name) - 1`, else `""`). -/
def pySuffix (p : String) : String :=
  let name := ((pySplit "/" p).getLastD "")
  let cs := name.toList
  match cs.reverse.findIdx? (· = '.') with
  | none => ""
  | some revIdx =>
    let i := cs.length - 1 - revIdx
    if 0 < i && i < cs.length - 1 then String.mk (cs.drop i) else ""

/-- The tail of `HTTPServer.handle_request` from the `is_file` check on
(src/src/server.py:187-213), shared by the directory-index branch and the
plain-file branch: serve `file_path` with Content-Type from the extension
lookup and Content-Length from the byte count, attaching the body only
for GET. -/
def serveFile (fs : FS) (date : String) (req : HTTPRequest) (file_path : String) :
    HTTPResponse :=
  if !(fs.is_file file_path) then HTTPResponse.mkResp date 403 (some "Forbidden")
  else
    match fs.read_bytes file_path with
    | .permError => HTTPResponse.mkResp date 403 (some "Forbidden")
    | .otherError => HTTPResponse.mkResp date 500 (some "Internal Server Error")
    | .ok content =>
      let response := HTTPResponse.mkResp date 200 (some "OK")
      let response := { response with
        headers := dictSet response.headers "Content-Type"
          (get_content_type (pySuffix file_path)) }
      let response := { response with
        headers := dictSet response.headers "Content-Length"
          (toString content.length) }
      if req.method = "GET" then { response with body := some content } else response

/-- `HTTPServer.handle_request` (src/src/server.py:130-217). `root` is
`self.document_root` (already resolved at construction). `Path.resolve`
is total in the model, so the outer `except`-to-500 fallback has no
counterpart. -/
def handle_request (fs : FS) (root : String) (date : String) (req : HTTPRequest) :
    HTTPResponse :=
  if ¬(req.method = "GET" ∨ req.method = "HEAD") then
    HTTPResponse.mkResp date 405 (some "Method Not Allowed")
  else
    match url_decode req.path with
    | none => HTTPResponse.mkResp date 400 (some "Bad Request")
    | some decoded =>
      let path := stripQuery decoded
      if strContains path "../" then HTTPResponse.mkResp date 403 (some "Forbidden")
      else
        let path := stripLeadingSlash path
        let ends_with_slash := pyEndsWith path "/"
        let file_path := pathJoin root path
        if ends_with_slash && !(fs.is_dir file_path) then
          HTTPResponse.mkResp date 404 (some "Not Found")
        else
          let fp := fs.resolve file_path
          if !(pyStartsWith fp root) then HTTPResponse.mkResp date 403 (some "Forbidden")
          else if !(fs.exist fp) then HTTPResponse.mkResp date 404 (some "Not Found")
          else if fs.is_dir fp then
            let index_path := pathJoin fp "index.html"
            if fs.exist index_path && fs.is_file index_path then
              serveFile fs date req index_path
            else HTTPResponse.mkResp date 404 (some "Forbidden")
          else serveFile fs date req fp

/-- One turn of the `while True` loop of `HTTPServer.handle_client`
(src/src/server.py:79-114), from the completed read to the keep-alive
decision. -/
inductive ClientStep where
  /-- The loop `break`s without writing (read timeout at line 83-85, or
  empty read at line 87-88). -/
  | closedNoResponse
  /-- A response is written and the loop `break`s (closing the
  connection in the `finally` block). -/
  | respondedClose (resp : HTTPResponse)
  /-- A response is written and the loop continues with the next read. -/
  | respondedContinue (resp : HTTPResponse)
deriving DecidableEq

/-- `dict.get('Connection', '')` of a request. -/
def connectionHeader (req : HTTPRequest) : String :=
  dictGetD req.headers "Connection" ""

/-- One iteration of `HTTPServer.handle_client`
(src/src/server.py:79-114): `none` models a read timeout, `some []` the
peer closing; a parse failure answers 400 and closes; otherwise the
`handle_request` response is written and the connection closes exactly
when the `Connection` header (lower-cased) equals `"close"`, or the
version is exactly `"HTTP/1.0"` and the header is not `"keep-alive"`. -/
def handle_client_step (fs : FS) (root : String) (date : String)
    (input : Option (List Nat)) : ClientStep :=
  match input with
  | none => .closedNoResponse
  | some data =>
    if data.isEmpty then .closedNoResponse
    else
      match parse_http_request data with
      | .error _ => .respondedClose (HTTPResponse.mkResp date 400 (some "Bad Request"))
      | .ok request =>
        let response := handle_request fs root date request
        if pyLower (connectionHeader request) = "close" then .respondedClose response
        else if request.version = "HTTP/1.0" ∧
            pyLower (connectionHeader request) ≠ "keep-alive" then .respondedClose response
        else .respondedContinue response

/-! ## Dictionary lemmas -/

theorem dictGet?_dictSet_same (m : List (String × String)) (k v : String) :
    dictGet? (dictSet m k v) k = some v := by
  induction m with
  | nil => simp [dictSet, dictGet?]
  | cons kv rest ih =>
    by_cases h : kv.1 = k
    · simp [dictSet, dictGet?, h]
    · simp [dictSet, dictGet?, h, ih]

theorem dictGet?_dictSet_ne (m : List (String × String)) (k v k' : String)
    (h : k' ≠ k) : dictGet? (dictSet m k v) k' = dictGet? m k' := by
  have hk'1 : ¬(k = k') := fun hh => h hh.symm
  induction m with
  | nil => simp [dictSet, dictGet?, hk'1]
  | cons kv rest ih =>
    by_cases hk : kv.1 = k
    · subst hk
      simp [dictSet, dictGet?, hk'1]
    · simp [dictSet, dictGet?, hk, ih]

/-! ## Claim-side vocabulary for the parser -/

/-- The trimmed name/value pair carried by one non-empty header line
that contains a colon. -/
def pairOf (line : String) : Option (String × String) :=
  if line = "" then none
  else if strContains line ":" then
    some (pyStrip (splitOnceChar ':' line).1, pyStrip (splitOnceChar ':' line).2)
  else none

/-- The trimmed pairs of all header lines of a raw request, in order. -/
def headerPairs (data : List Nat) : List (String × String) :=
  ((requestLines data).tail).filterMap pairOf

/-- Last-one-wins reading of a pair list: the value of the last pair
whose name equals `name` (the claim's wording for duplicate headers). -/
def lastValue (pairs : List (String × String)) (name : String) : Option String :=
  (pairs.reverse.find? (fun kv => kv.1 == name)).map (·.2)

/-- What `parse_http_request` guarantees about an accepted raw request:
the first decoded line split into exactly three space-separated tokens
(the request's method, path and version), the version token starts with
`"HTTP/"`, every non-empty later line contains a colon, and the header
map is the dict built from the trimmed pairs. -/
def wellFormedRequest (data : List Nat) (req : HTTPRequest) : Prop :=
  pySplit " " ((requestLines data).headD "") = [req.method, req.path, req.version] ∧
  pyStartsWith req.version "HTTP/" = true ∧
  (∀ line ∈ (requestLines data).tail, line ≠ "" → strContains line ":" = true) ∧
  req.headers = (headerPairs data).foldl (fun m kv => dictSet m kv.1 kv.2) []

/-- A successful header loop means every processed non-empty line had a
colon, and the result is the fold of the trimmed pairs over the
accumulator. -/
theorem parseHeaders_ok (lines : List String) (acc h : List (String × String))
    (hok : parseHeaders lines acc = .ok h) :
    (∀ line ∈ lines, line ≠ "" → strContains line ":" = true) ∧
    h = (lines.filterMap pairOf).foldl (fun m kv => dictSet m kv.1 kv.2) acc := by
  induction lines generalizing acc with
  | nil =>
    simp [parseHeaders] at hok
    simp [hok]
  | cons line rest ih =>
    by_cases hline : line = ""
    · subst hline
      simp only [parseHeaders, if_pos rfl] at hok
      obtain ⟨h1, h2⟩ := ih acc hok
      refine ⟨?_, ?_⟩
      · intro l hl hne
        rcases List.mem_cons.mp hl with hl | hl
        · exact absurd hl hne
        · exact h1 l hl hne
      · simpa [pairOf] using h2
    · by_cases hcolon : strContains line ":" = true
      · simp only [parseHeaders, if_neg hline, hcolon, Bool.not_true] at hok
        rw [if_neg (by simp)] at hok
        obtain ⟨h1, h2⟩ := ih _ hok
        refine ⟨?_, ?_⟩
        · intro l hl hne
          rcases List.mem_cons.mp hl with hl | hl
          · subst hl; exact hcolon
          · exact h1 l hl hne
        · simpa [pairOf, hline, hcolon] using h2
      · exfalso
        simp only [parseHeaders, if_neg hline] at hok
        rw [if_pos (by simp [Bool.not_eq_true] at hcolon ⊢; exact hcolon)] at hok
        exact absurd hok (by simp)

/-- A successful parse yields a well-formed request. -/
theorem parse_ok_wellFormed (data : List Nat) (req : HTTPRequest)
    (h : parse_http_request data = .ok req) : wellFormedRequest data req := by
  unfold parse_http_request at h
  split at h
  · exact absurd h (by simp)
  · rename_i first rest heq1
    split at h
    · rename_i method path version heq2
      split at h
      · exact absurd h (by simp)
      · rename_i hver
        split at h
        · exact absurd h (by simp)
        · rename_i headers heq3
          obtain ⟨h1, h2⟩ := parseHeaders_ok rest [] headers heq3
          cases h
          refine ⟨?_, ?_, ?_, ?_⟩
          · simp [heq1, heq2]
          · simpa using hver
          · simpa [heq1] using h1
          · simp [headerPairs, heq1, h2]
    · exact absurd h (by simp)

/-- Looking a name up in the dict built by folding `dictSet` over a pair
list gives the value of the last pair with that name, falling back to
the accumulator. -/
theorem dictGet?_foldl_dictSet (pairs : List (String × String))
    (acc : List (String × String)) (name : String) :
    dictGet? (pairs.foldl (fun m kv => dictSet m kv.1 kv.2) acc) name =
      match lastValue pairs name with
      | some v => some v
      | none => dictGet? acc name := by
  induction pairs generalizing acc with
  | nil => simp [lastValue]
  | cons kv rest ih =>
    simp only [List.foldl_cons]
    rw [ih]
    simp only [lastValue, List.reverse_cons, List.find?_append]
    cases hfind : rest.reverse.find? (fun kv => kv.1 == name) with
    | some kv' => simp [hfind, Option.or]
    | none =>
      simp only [hfind, Option.or]
      by_cases hk : kv.1 = name
      · simp [List.find?, hk, dictGet?_dictSet_same]
      · have hne : name ≠ kv.1 := fun hh => hk hh.symm
        have hbeq : (kv.1 == name) = false := by simp [hk]
        simp [List.find?, hbeq, dictGet?_dictSet_ne _ _ _ _ hne]

/-! ## Claim-side vocabulary for the connection loop -/

/-- The claim's close condition: the `Connection` header value
case-insensitively equals `close`, or the version is exactly
`"HTTP/1.0"` and the `Connection` header value is not case-insensitively
`keep-alive`. -/
def shouldCloseSpec (req : HTTPRequest) : Prop :=
  pyLower (connectionHeader req) = "close" ∨
  (req.version = "HTTP/1.0" ∧ pyLower (connectionHeader req) ≠ "keep-alive")

/-- A response advertises `Connection: keep-alive`: the header map binds
`Connection` to `keep-alive`, the line is one of the serialized header
lines, and the serialized header block contains the full
`"Connection: keep-alive\r\n"` line as a contiguous character run. -/
def advertisesKeepAlive (r : HTTPResponse) : Prop :=
  dictGet? r.headers "Connection" = some "keep-alive" ∧
  ("Connection" ++ ": " ++ "keep-alive") ∈ to_bytes_header_lines r ∧
  ∃ s t : List Char,
    (to_bytes_headerBlock r).data = s ++ ("Connection: keep-alive" ++ "\r\n").data ++ t

/-- Any member line of a header-line list appears, CRLF-terminated, as a
contiguous run inside the serialized block `joinCRLF lines ++ "\r\n\r\n"`. -/
theorem joinCRLF_mem_infix (lines : List String) (line : String)
    (h : line ∈ lines) :
    ∃ s t : List Char,
      (joinCRLF lines ++ "\r\n\r\n").data = s ++ (line ++ "\r\n").data ++ t := by
  induction lines with
  | nil => cases h
  | cons l rest ih =>
    have hsplit : ("\r\n\r\n" : String).data = ("\r\n" : String).data ++ ("\r\n" : String).data := by
      decide
    rcases List.mem_cons.mp h with hl | hl
    · subst hl
      cases rest with
      | nil =>
        refine ⟨[], ("\r\n").data, ?_⟩
        simp [joinCRLF, String.data_append, List.append_assoc, hsplit]
      | cons l2 rest2 =>
        refine ⟨[], (joinCRLF (l2 :: rest2) ++ "\r\n\r\n").data, ?_⟩
        simp [joinCRLF, String.data_append, List.append_assoc]
    · cases rest with
      | nil => cases hl
      | cons l2 rest2 =>
        obtain ⟨s, t, hst⟩ := ih hl
        refine ⟨l.data ++ ("\r\n").data ++ s, t, ?_⟩
        simp only [joinCRLF, String.data_append, List.append_assoc] at hst ⊢
        rw [hst]

/-- Binding `Connection ↦ keep-alive` in the dict plus membership of the
line among the header lines yields the full advertisement property. -/
theorem advertisesKeepAlive_of_mem (r : HTTPResponse)
    (h1 : dictGet? r.headers "Connection" = some "keep-alive")
    (h2 : ("Connection" ++ ": " ++ "keep-alive") ∈ to_bytes_header_lines r) :
    advertisesKeepAlive r := by
  refine ⟨h1, h2, ?_⟩
  obtain ⟨s, t, hst⟩ := joinCRLF_mem_infix _ _ h2
  refine ⟨s, t, ?_⟩
  have hneedle : (("Connection" ++ ": " ++ "keep-alive") ++ "\r\n").data =
      (("Connection: keep-alive") ++ "\r\n").data := by decide
  rw [to_bytes_headerBlock, hst, hneedle]

/-- Every constructed response advertises keep-alive: `__init__` installs
`Server`, `Date` and `Connection: keep-alive` as defaults. -/
theorem advertises_mkResp (date : String) (code : Nat) (msg : Option String) :
    advertisesKeepAlive (HTTPResponse.mkResp date code msg) := by
  apply advertisesKeepAlive_of_mem
  · simp [HTTPResponse.mkResp, dictSet, dictGet?]
  · simp [HTTPResponse.mkResp, dictSet, to_bytes_header_lines]

/-- Every response produced by the file-serving tail advertises
keep-alive: the added `Content-Type` / `Content-Length` headers never
touch the `Connection` entry. -/
theorem advertises_serveFile (fs : FS) (date : String) (req : HTTPRequest)
    (p : String) : advertisesKeepAlive (serveFile fs date req p) := by
  unfold serveFile
  split
  · exact advertises_mkResp date 403 (some "Forbidden")
  · split
    · exact advertises_mkResp date 403 (some "Forbidden")
    · exact advertises_mkResp date 500 (some "Internal Server Error")
    · dsimp only
      split
      · apply advertisesKeepAlive_of_mem
        · simp [HTTPResponse.mkResp, dictSet, dictGet?]
        · simp [HTTPResponse.mkResp, dictSet, to_bytes_header_lines]
      · apply advertisesKeepAlive_of_mem
        · simp [HTTPResponse.mkResp, dictSet, dictGet?]
        · simp [HTTPResponse.mkResp, dictSet, to_bytes_header_lines]

/-- Every response of `handle_request` advertises keep-alive. -/
theorem advertises_handle_request (fs : FS) (root date : String)
    (req : HTTPRequest) : advertisesKeepAlive (handle_request fs root date req) := by
  unfold handle_request
  split
  · exact advertises_mkResp date 405 (some "Method Not Allowed")
  · split
    · exact advertises_mkResp date 400 (some "Bad Request")
    · try dsimp only
      split
      · exact advertises_mkResp date 403 (some "Forbidden")
      · try dsimp only
        split
        · exact advertises_mkResp date 404 (some "Not Found")
        · try dsimp only
          split
          · exact advertises_mkResp date 403 (some "Forbidden")
          · split
            · exact advertises_mkResp date 404 (some "Not Found")
            · split
              · try dsimp only
                split
                · apply advertises_serveFile
                · exact advertises_mkResp date 404 (some "Forbidden")
              · apply advertises_serveFile

/-- Turning a negated conjunction about two booleans into the falsity of
the guard `a && !b`. -/
theorem band_bnot_eq_false {a b : Bool} (h : ¬(a = true ∧ b = false)) :
    (a && !b) = false := by
  cases a <;> cases b <;> simp_all

/-- Turning a negated conjunction about two booleans into the falsity of
the guard `a && b`. -/
theorem band_eq_false {a b : Bool} (h : ¬(a = true ∧ b = true)) :
    (a && b) = false := by
  cases a <;> cases b <;> simp_all

/-! ## Concrete fixtures for witnesses and counterexamples -/

/-- A filesystem with no entries: every query is false, resolution is the
identity, every read fails. -/
def fsEmpty : FS :=
  { is_dir := fun _ => false, resolve := fun p => p, exist := fun _ => false,
    is_file := fun _ => false, read_bytes := fun _ => .otherError }

/-- A filesystem on which every candidate resolves (through a symlink) to
the outside file `/outside/f`; nothing is a directory. -/
def fsSymlinkFile : FS :=
  { is_dir := fun _ => false, resolve := fun _ => "/outside/f",
    exist := fun _ => false, is_file := fun _ => false,
    read_bytes := fun _ => .otherError }

/-- A filesystem where `/root/d` is an existing directory containing no
`index.html`. -/
def fsDirNoIndex : FS :=
  { is_dir := fun s => s == "/root/d", resolve := fun p => p,
    exist := fun s => s == "/root/d", is_file := fun _ => false,
    read_bytes := fun _ => .otherError }

/-- A filesystem where `/root/a.txt` is a readable regular file with
content `"hi"`. -/
def fsFile : FS :=
  { is_dir := fun _ => false, resolve := fun p => p,
    exist := fun s => s == "/root/a.txt", is_file := fun s => s == "/root/a.txt",
    read_bytes := fun s => if s == "/root/a.txt" then .ok (strBytes "hi") else .otherError }

/-- A GET request (HTTP/1.1, no headers, no body) for path `p`. -/
def reqGetOf (p : String) : HTTPRequest :=
  { method := "GET", path := p, version := "HTTP/1.1", headers := [], body := none }

/-! ## Claims -/

/-- A 404 response with no body and no explicit `Content-Length`, as the
server's error paths produce. -/
def respErr404 : HTTPResponse := HTTPResponse.mkResp "D" 404 none

/-- A 200 response whose body was set without adding an explicit
`Content-Length` header. -/
def respBody200 : HTTPResponse :=
  { HTTPResponse.mkResp "D" 200 none with body := some (strBytes "hi") }

/-- C1, evaluated at the failing inputs: `to_bytes` does synthesize the
HTML error body for a body-less 404 (it is appended to the wire bytes),
but the serialized header block contains neither the `Content-Length`
nor the `Content-Type` header the claim requires — and for a 200
response with a body, no `Content-Length` reaches the header block
either.  `header_lines` is materialized before the fix-ups mutate
`self.headers` (src/src/http_response.py:42-56), so the added headers
never reach the wire. -/
theorem C1_content_length_missing_from_wire :
    (strContains (to_bytes_headerBlock respBody200) "Content-Length" = false ∧
     to_bytes respBody200 = strBytes (to_bytes_headerBlock respBody200) ++ strBytes "hi") ∧
    (strContains (to_bytes_headerBlock respErr404) "Content-Length" = false ∧
     strContains (to_bytes_headerBlock respErr404) "Content-Type" = false ∧
     to_bytes respErr404 =
       strBytes (to_bytes_headerBlock respErr404) ++
         strBytes (errorBodyStr 404 "Not Found")) := by
  decide

/-- A GET request whose target carries `../` only inside the query
string. -/
def reqQueryTraversal : HTTPRequest := reqGetOf "/x?../"

/-- Counterexample to C2 as stated: the percent-decoded path of
`reqQueryTraversal` is `"/x?../"`, which contains the literal substring
`"../"`, yet `handle_request` answers 404 Not Found — the query string
is stripped before the traversal check, so a `"../"` that occurs only
after the `?` is never seen by that check. -/
theorem C2_counterexample :
    url_decode reqQueryTraversal.path = some "/x?../" ∧
    strContains "/x?../" "../" = true ∧
    handle_request fsEmpty "/root" "D" reqQueryTraversal =
      HTTPResponse.mkResp "D" 404 (some "Not Found") ∧
    (handle_request fsEmpty "/root" "D" reqQueryTraversal).status_code ≠ 403 := by
  decide

/-- C2 (amended): for every GET or HEAD request whose percent-decoded
path, after the query string (everything from the first `?`) has been
stripped, contains the literal substring `"../"`, `handle_request`
returns 403 Forbidden, regardless of the filesystem. -/
theorem C2_traversal_rejected (fs : FS) (root date : String) (req : HTTPRequest)
    (dec : String) (hm : req.method = "GET" ∨ req.method = "HEAD")
    (hd : url_decode req.path = some dec)
    (hdd : strContains (stripQuery dec) "../" = true) :
    handle_request fs root date req = HTTPResponse.mkResp date 403 (some "Forbidden") := by
  rcases hm with hm | hm <;> simp [handle_request, hm, hd, hdd]

/-- Witness for C2 (amended) at the concrete request `GET /a/../b`. -/
theorem C2_traversal_rejected_witness :
    handle_request fsEmpty "/root" "D" (reqGetOf "/a/../b") =
      HTTPResponse.mkResp "D" 403 (some "Forbidden") :=
  C2_traversal_rejected fsEmpty "/root" "D" (reqGetOf "/a/../b") "/a/../b"
    (Or.inl rfl) rfl (by decide)

/-- Counterexample to C3 as stated: on `fsSymlinkFile` the candidate for
`GET /link/` resolves to `/outside/f`, which escapes the document root
by the string-prefix containment test, yet the response is 404 Not
Found, not 403 — the trailing-slash directory check
(src/src/server.py:162-164) fires before the containment check. -/
theorem C3_counterexample :
    pyStartsWith
      (fsSymlinkFile.resolve
        (pathJoin "/root" (stripLeadingSlash (stripQuery "/link/")))) "/root" = false ∧
    handle_request fsSymlinkFile "/root" "D" (reqGetOf "/link/") =
      HTTPResponse.mkResp "D" 404 (some "Not Found") ∧
    (handle_request fsSymlinkFile "/root" "D" (reqGetOf "/link/")).status_code ≠ 403 := by
  decide

/-- C3 (amended): for every GET or HEAD request whose candidate path,
resolved to canonical absolute form, escapes the document root —
containment judged by the resolved path's string representation starting
with the document root's — `handle_request` returns 403 Forbidden,
provided the earlier trailing-slash check does not fire first (the
decoded stripped path must not end in `/` while the unresolved candidate
is not a directory; in that case the code answers 404 before ever
resolving). -/
theorem C3_escape_rejected (fs : FS) (root date : String) (req : HTTPRequest)
    (dec : String) (hm : req.method = "GET" ∨ req.method = "HEAD")
    (hd : url_decode req.path = some dec)
    (hslash : ¬(pyEndsWith (stripLeadingSlash (stripQuery dec)) "/" = true ∧
        fs.is_dir (pathJoin root (stripLeadingSlash (stripQuery dec))) = false))
    (hesc : pyStartsWith
        (fs.resolve (pathJoin root (stripLeadingSlash (stripQuery dec)))) root = false) :
    handle_request fs root date req = HTTPResponse.mkResp date 403 (some "Forbidden") := by
  have hcond := band_bnot_eq_false hslash
  rcases hm with hm | hm <;> (
    by_cases hdd : strContains (stripQuery dec) "../" = true
    · simp [handle_request, hm, hd, hdd]
    · simp [handle_request, hm, hd, hdd, hcond, hesc])

/-- Witness for C3 (amended) at `GET /link` on `fsSymlinkFile`. -/
theorem C3_escape_rejected_witness :
    handle_request fsSymlinkFile "/root" "D" (reqGetOf "/link") =
      HTTPResponse.mkResp "D" 403 (some "Forbidden") :=
  C3_escape_rejected fsSymlinkFile "/root" "D" (reqGetOf "/link") "/link"
    (Or.inl rfl) rfl (by decide) (by decide)

/-- C4: for every byte-string input, `parse_http_request` either fails
with the single malformed-request error kind, or returns a request whose
request line consisted of exactly three space-separated tokens — its
method, path and version — with the version token starting with
`"HTTP/"`, and each of whose non-empty header lines contained a colon,
name and value trimmed of surrounding whitespace into the header map;
no other outcome is possible. -/
theorem C4_parse_dichotomy (data : List Nat) :
    parse_http_request data = .error () ∨
    ∃ req, parse_http_request data = .ok req ∧ wellFormedRequest data req := by
  cases h : parse_http_request data with
  | error e => cases e; exact Or.inl rfl
  | ok req => exact Or.inr ⟨req, rfl, parse_ok_wellFormed data req h⟩

/-- C5: a GET or HEAD request that passes decoding, the traversal check,
the trailing-slash check and containment, and resolves to an existing
directory with no regular `index.html` directly inside it, is answered
with status code 404 but status message text `"Forbidden"`
(src/src/server.py:185). -/
theorem C5_directory_without_index (fs : FS) (root date : String)
    (req : HTTPRequest) (dec : String)
    (hm : req.method = "GET" ∨ req.method = "HEAD")
    (hd : url_decode req.path = some dec)
    (hdd : strContains (stripQuery dec) "../" = false)
    (hslash : ¬(pyEndsWith (stripLeadingSlash (stripQuery dec)) "/" = true ∧
        fs.is_dir (pathJoin root (stripLeadingSlash (stripQuery dec))) = false))
    (hin : pyStartsWith
        (fs.resolve (pathJoin root (stripLeadingSlash (stripQuery dec)))) root = true)
    (hex : fs.exist (fs.resolve (pathJoin root (stripLeadingSlash (stripQuery dec)))) = true)
    (hdir : fs.is_dir (fs.resolve (pathJoin root (stripLeadingSlash (stripQuery dec)))) = true)
    (hnoidx : ¬(fs.exist (pathJoin
          (fs.resolve (pathJoin root (stripLeadingSlash (stripQuery dec))))
          "index.html") = true ∧
        fs.is_file (pathJoin
          (fs.resolve (pathJoin root (stripLeadingSlash (stripQuery dec))))
          "index.html") = true)) :
    handle_request fs root date req = HTTPResponse.mkResp date 404 (some "Forbidden") := by
  have hcond := band_bnot_eq_false hslash
  have hidx : (fs.exist (pathJoin
      (fs.resolve (pathJoin root (stripLeadingSlash (stripQuery dec)))) "index.html") &&
      fs.is_file (pathJoin
      (fs.resolve (pathJoin root (stripLeadingSlash (stripQuery dec)))) "index.html")) = false :=
    band_eq_false hnoidx
  rcases hm with hm | hm <;>
    simp [handle_request, hm, hd, hdd, hcond, hin, hex, hdir, hidx]

/-- Witness for C5 at `GET /d` on `fsDirNoIndex`. -/
theorem C5_directory_without_index_witness :
    handle_request fsDirNoIndex "/root" "D" (reqGetOf "/d") =
      HTTPResponse.mkResp "D" 404 (some "Forbidden") :=
  C5_directory_without_index fsDirNoIndex "/root" "D" (reqGetOf "/d") "/d"
    (Or.inl rfl) rfl (by decide) (by decide) (by decide) (by decide) (by decide)
    (by decide)

/-- C6: once a request has been parsed and responded to, the connection
is closed exactly when the request's `Connection` header value
(case-insensitively) equals `close`, or the version is exactly
`"HTTP/1.0"` and that header is not case-insensitively `keep-alive`;
in every other case the loop continues with the next read on the same
connection. -/
theorem C6_keepalive_decision (fs : FS) (root date : String) (data : List Nat)
    (req : HTTPRequest) (h : parse_http_request data = .ok req) :
    (handle_client_step fs root date (some data) =
        .respondedClose (handle_request fs root date req) ↔ shouldCloseSpec req) ∧
    (handle_client_step fs root date (some data) =
        .respondedContinue (handle_request fs root date req) ↔ ¬ shouldCloseSpec req) := by
  have hne : data.isEmpty = false := by
    cases data with
    | nil =>
      rw [show parse_http_request [] = .error () from rfl] at h
      exact absurd h (by simp)
    | cons b rest => rfl
  simp only [handle_client_step, hne, Bool.false_eq_true, if_false, h]
  by_cases hc : pyLower (connectionHeader req) = "close"
  · constructor <;> simp [hc, shouldCloseSpec]
  · by_cases hv : req.version = "HTTP/1.0" ∧ pyLower (connectionHeader req) ≠ "keep-alive"
    · constructor <;> simp [hc, hv, shouldCloseSpec]
    · constructor <;> simp [hc, hv, shouldCloseSpec]

/-- Witness for C6: a parsed `GET / HTTP/1.0` request without a
`Connection` header closes the connection after the response. -/
theorem C6_keepalive_decision_witness :
    handle_client_step fsEmpty "/root" "D" (some (strBytes "GET / HTTP/1.0\r\n\r\n")) =
      .respondedClose (handle_request fsEmpty "/root" "D"
        { method := "GET", path := "/", version := "HTTP/1.0",
          headers := [], body := none }) :=
  ((C6_keepalive_decision fsEmpty "/root" "D" (strBytes "GET / HTTP/1.0\r\n\r\n")
      { method := "GET", path := "/", version := "HTTP/1.0",
        headers := [], body := none } rfl).1).mpr
    (Or.inr ⟨rfl, by decide⟩)

/-- C7: when a path resolves under the document root to an existing,
readable regular file, the HEAD response carries exactly the same
headers as the GET response for the same path and the same `Date` —
including `Content-Type` from the extension lookup and `Content-Length`
equal to the file's byte count — both have status 200, the HEAD body is
empty (absent) and the GET body is the file's exact bytes. -/
theorem C7_head_get_same_headers (fs : FS) (root date : String)
    (reqG reqH : HTTPRequest) (p dec : String) (content : List Nat)
    (hG : reqG.method = "GET") (hH : reqH.method = "HEAD")
    (hpG : reqG.path = p) (hpH : reqH.path = p)
    (hd : url_decode p = some dec)
    (hdd : strContains (stripQuery dec) "../" = false)
    (hslash : ¬(pyEndsWith (stripLeadingSlash (stripQuery dec)) "/" = true ∧
        fs.is_dir (pathJoin root (stripLeadingSlash (stripQuery dec))) = false))
    (hin : pyStartsWith
        (fs.resolve (pathJoin root (stripLeadingSlash (stripQuery dec)))) root = true)
    (hex : fs.exist (fs.resolve (pathJoin root (stripLeadingSlash (stripQuery dec)))) = true)
    (hndir : fs.is_dir (fs.resolve (pathJoin root (stripLeadingSlash (stripQuery dec)))) = false)
    (hfile : fs.is_file (fs.resolve (pathJoin root (stripLeadingSlash (stripQuery dec)))) = true)
    (hread : fs.read_bytes (fs.resolve (pathJoin root (stripLeadingSlash (stripQuery dec)))) =
        .ok content) :
    (handle_request fs root date reqG).status_code = 200 ∧
    (handle_request fs root date reqH).status_code = 200 ∧
    (handle_request fs root date reqG).headers = (handle_request fs root date reqH).headers ∧
    dictGet? (handle_request fs root date reqG).headers "Content-Type" =
      some (get_content_type (pySuffix
        (fs.resolve (pathJoin root (stripLeadingSlash (stripQuery dec)))))) ∧
    dictGet? (handle_request fs root date reqG).headers "Content-Length" =
      some (toString content.length) ∧
    (handle_request fs root date reqG).body = some content ∧
    (handle_request fs root date reqH).body = none := by
  have hcond := band_bnot_eq_false hslash
  simp [handle_request, serveFile, hG, hH, hpG, hpH, hd, hdd, hcond, hin, hex,
    hndir, hfile, hread, HTTPResponse.mkResp, dictSet, dictGet?]

/-- Witness for C7 at `GET /a.txt` and `HEAD /a.txt` on `fsFile`. -/
theorem C7_head_get_same_headers_witness :
    (handle_request fsFile "/root" "D" (reqGetOf "/a.txt")).status_code = 200 ∧
    (handle_request fsFile "/root" "D"
        { method := "HEAD", path := "/a.txt", version := "HTTP/1.1",
          headers := [], body := none }).status_code = 200 ∧
    (handle_request fsFile "/root" "D" (reqGetOf "/a.txt")).headers =
      (handle_request fsFile "/root" "D"
        { method := "HEAD", path := "/a.txt", version := "HTTP/1.1",
          headers := [], body := none }).headers ∧
    dictGet? (handle_request fsFile "/root" "D" (reqGetOf "/a.txt")).headers
        "Content-Type" =
      some (get_content_type (pySuffix
        (fsFile.resolve (pathJoin "/root" (stripLeadingSlash (stripQuery "/a.txt")))))) ∧
    dictGet? (handle_request fsFile "/root" "D" (reqGetOf "/a.txt")).headers
        "Content-Length" =
      some (toString (strBytes "hi").length) ∧
    (handle_request fsFile "/root" "D" (reqGetOf "/a.txt")).body =
      some (strBytes "hi") ∧
    (handle_request fsFile "/root" "D"
        { method := "HEAD", path := "/a.txt", version := "HTTP/1.1",
          headers := [], body := none }).body = none :=
  C7_head_get_same_headers fsFile "/root" "D" (reqGetOf "/a.txt")
    { method := "HEAD", path := "/a.txt", version := "HTTP/1.1",
      headers := [], body := none }
    "/a.txt" "/a.txt" (strBytes "hi") rfl rfl rfl rfl rfl (by decide) (by decide)
    (by decide) (by decide) (by decide) (by decide) (by decide)

/-- C8: every successfully parsed request with method `POST` is answered
405 Method Not Allowed, for any path whatsoever — the method check
precedes the path decoding, so even a path with invalid
percent-encoding never reaches the decoder. -/
theorem C8_post_rejected (fs : FS) (root date : String) (req : HTTPRequest)
    (h : req.method = "POST") :
    handle_request fs root date req =
      HTTPResponse.mkResp date 405 (some "Method Not Allowed") := by
  simp [handle_request, h]

/-- Witness for C8 at `POST /%ff` (a path whose percent-encoding does
not decode). -/
theorem C8_post_rejected_witness :
    handle_request fsEmpty "/root" "D"
        { method := "POST", path := "/%ff", version := "HTTP/1.1",
          headers := [], body := none } =
      HTTPResponse.mkResp "D" 405 (some "Method Not Allowed") ∧
    url_decode "/%ff" = none :=
  ⟨C8_post_rejected fsEmpty "/root" "D"
      { method := "POST", path := "/%ff", version := "HTTP/1.1",
        headers := [], body := none } rfl,
   by decide⟩

/-- C9: every response the connection loop writes — the `handle_request`
response as well as the 400 sent for a malformed request (after which
the loop closes the connection) — advertises `Connection: keep-alive`:
the constructor installs it as a default header and no code path ever
overwrites it. -/
theorem C9_responses_advertise_keepalive (fs : FS) (root date : String)
    (input : Option (List Nat)) (r : HTTPResponse)
    (h : handle_client_step fs root date input = .respondedClose r ∨
         handle_client_step fs root date input = .respondedContinue r) :
    advertisesKeepAlive r := by
  cases input with
  | none => rcases h with h | h <;> exact absurd h (by simp [handle_client_step])
  | some data =>
    unfold handle_client_step at h
    dsimp only at h
    by_cases hne : data.isEmpty = true
    · rw [if_pos hne] at h
      rcases h with h | h <;> exact absurd h (by simp)
    · rw [if_neg hne] at h
      cases hp : parse_http_request data with
      | error e =>
        rw [hp] at h
        rcases h with h | h
        · cases h
          exact advertises_mkResp date 400 (some "Bad Request")
        · exact absurd h (by simp)
      | ok req =>
        rw [hp] at h
        dsimp only at h
        rcases h with h | h
        · split at h
          · cases h
            exact advertises_handle_request fs root date req
          · split at h
            · cases h
              exact advertises_handle_request fs root date req
            · simp at h
        · split at h
          · simp at h
          · split at h
            · simp at h
            · cases h
              exact advertises_handle_request fs root date req

/-- Witness for C9: the response to `GET / HTTP/1.1` on the empty
filesystem (a kept-alive 404) advertises keep-alive. -/
theorem C9_responses_advertise_keepalive_witness :
    advertisesKeepAlive (handle_request fsEmpty "/root" "D" (reqGetOf "/")) :=
  C9_responses_advertise_keepalive fsEmpty "/root" "D"
    (some (strBytes "GET / HTTP/1.1\r\n\r\n"))
    (handle_request fsEmpty "/root" "D" (reqGetOf "/"))
    (Or.inr rfl)

/-- C10: for every input accepted by the parser, looking a header name
up in the resulting header map yields the value of the last header line
whose trimmed name equals it (last-one-wins for duplicates). -/
theorem C10_duplicate_headers_last_wins (data : List Nat) (req : HTTPRequest)
    (name : String) (h : parse_http_request data = .ok req) :
    dictGet? req.headers name = lastValue (headerPairs data) name := by
  obtain ⟨-, -, -, hh⟩ := parse_ok_wellFormed data req h
  rw [hh, dictGet?_foldl_dictSet]
  cases lastValue (headerPairs data) name <;> simp [dictGet?]

/-- The request that `parse_http_request` produces from the raw request
`GET / HTTP/1.1` with duplicate `A` headers valued `1` then `2`. -/
def reqDupHeaders : HTTPRequest :=
  { method := "GET", path := "/", version := "HTTP/1.1",
    headers := [("A", "2")], body := none }

/-- Witness for C10 at the raw request `GET / HTTP/1.1` with duplicate
`A` headers valued `1` then `2`: the map holds `2`. -/
theorem C10_duplicate_headers_last_wins_witness :
    dictGet? reqDupHeaders.headers "A" =
      lastValue (headerPairs (strBytes "GET / HTTP/1.1\r\nA: 1\r\nA: 2\r\n\r\n")) "A" ∧
    lastValue (headerPairs (strBytes "GET / HTTP/1.1\r\nA: 1\r\nA: 2\r\n\r\n")) "A" =
      some "2" :=
  ⟨C10_duplicate_headers_last_wins (strBytes "GET / HTTP/1.1\r\nA: 1\r\nA: 2\r\n\r\n")
      reqDupHeaders "A" rfl,
   by decide⟩

end SimpleHttpServer
